import Mathlib

/-!
Verification of the rate-resolution core of a browser currency converter.

The Python source (src/core/cache.py, src/core/converter.py,
src/api/fiat_client.py, src/api/crypto_client.py) is embedded shallowly:

* Python floats are modelled as exact rationals (ℚ); Python float division
  by zero raises ZeroDivisionError, modelled by an explicit zero test.
* HTTP traffic is modelled by an `Env` record: for each external endpoint a
  function from the request parameters to `Option` of a parsed response;
  `none` models a transport or JSON-decoding failure (`requests.get` or
  `response.json()` raising inside the provider try-block).
* `time.time()` / `datetime.utcnow()` are modelled by one rational clock
  value `now` held constant during an outer call; isoformat timestamp
  strings are modelled by the numeric clock value.
* Python exceptions are the `PyErr` type; Python `str(e)` is `errStr`.
* The streamlit session cache together with dict aliasing is modelled by
  `CState`: a heap of metadata dicts addressed by `Nat`, plus the
  `rate_cache` dict mapping cache keys to entries that hold a heap
  address, so that in-place mutation through a dict alias is observable.
-/

/-- Values stored in the dynamic metadata dicts of the source. -/
inductive Val where
  | num (q : ℚ)
  | str (s : String)
  | bool (b : Bool)
deriving DecidableEq

/-- A Python dict with string keys, as an association list without
duplicate keys (dict literals in the source have distinct keys, and
updates replace the binding in place). -/
abbrev Meta := List (String × Val)

/-- Python `d[k] = v`: replace the existing binding, else append. -/
def dset {β : Type} : List (String × β) → String → β → List (String × β)
  | [], k, v => [(k, v)]
  | (k0, v0) :: rest, k, v =>
    if k0 = k then (k0, v) :: rest else (k0, v0) :: dset rest k v

/-- Python `d.get(k)` / `k in d`: the binding of `k`, if any. -/
def dget {β : Type} : List (String × β) → String → Option β
  | [], _ => none
  | (k0, v0) :: rest, k => if k0 = k then some v0 else dget rest k

/-- Python str.upper(), modelled on the character list (every code this
program handles is ASCII); the list form is used because the library
string-map function does not reduce in the kernel. -/
def pyUpper (s : String) : String := ⟨s.data.map Char.toUpper⟩

/-- Python str.lower(), modelled on the character list. -/
def pyLower (s : String) : String := ⟨s.data.map Char.toLower⟩

/-- Python exceptions raised by the embedded code. -/
inductive PyErr where
  | valueError (msg : String)
  | runtimeError (msg : String)
  | zeroDivisionError
deriving DecidableEq

/-- Python `str(e)` on the exceptions above. -/
def errStr : PyErr → String
  | .valueError m => m
  | .runtimeError m => m
  | .zeroDivisionError => "float division by zero"

/-- Python `round(x)` to the nearest integer, ties to even. -/
def pyRoundInt (q : ℚ) : ℤ :=
  let f := ⌊q⌋
  let r := q - (f : ℚ)
  if r < 1 / 2 then f
  else if 1 / 2 < r then f + 1
  else if f % 2 = 0 then f else f + 1

/-- Python `round(x, 1)`. -/
def pyRound1 (q : ℚ) : ℚ := (pyRoundInt (10 * q) : ℚ) / 10

/-- FIAT_CURRENCIES from src/api/fiat_client.py. -/
def FIAT_CURRENCIES : List String :=
  ["USD", "EUR", "GBP", "JPY", "AUD", "CAD", "CHF", "CNY", "HKD", "NZD",
   "SEK", "KRW", "SGD", "NOK", "MXN", "INR", "RUB", "ZAR", "TRY", "BRL",
   "TWD", "DKK", "PLN", "THB", "IDR", "HUF", "CZK", "ILS", "CLP", "PHP",
   "AED", "SAR", "MYR", "PKR"]

/-- CRYPTO_MAPPING from src/api/crypto_client.py: code, coingecko id,
coincap id. -/
def CRYPTO_MAPPING : List (String × String × String) :=
  [("BTC", "bitcoin", "bitcoin"),
   ("ETH", "ethereum", "ethereum"),
   ("USDT", "tether", "tether"),
   ("BNB", "binancecoin", "binance-coin"),
   ("USDC", "usd-coin", "usd-coin"),
   ("XRP", "ripple", "xrp"),
   ("SOL", "solana", "solana"),
   ("ADA", "cardano", "cardano"),
   ("DOGE", "dogecoin", "dogecoin"),
   ("DOT", "polkadot", "polkadot"),
   ("LTC", "litecoin", "litecoin"),
   ("XLM", "stellar", "stellar"),
   ("LINK", "chainlink", "chainlink"),
   ("BCH", "bitcoin-cash", "bitcoin-cash"),
   ("ZEC", "zcash", "zcash"),
   ("BSV", "bitcoin-sv", "bitcoin-sv"),
   ("TRX", "tron", "tron"),
   ("ONT", "ontology", "ontology"),
   ("ETC", "ethereum-classic", "ethereum-classic"),
   ("NEO", "neo", "neo"),
   ("IOTA", "iota", "iota"),
   ("RED", "red", "red"),
   ("AAVE", "aave", "aave"),
   ("UNI", "uniswap", "uniswap"),
   ("SOLANA", "solana", "solana"),
   ("SUSHI", "sushi", "sushi"),
   ("YFI", "yearn-finance", "yearn-finance"),
   ("CRV", "curve-dao-token", "curve-dao-token"),
   ("UNISWAP", "uniswap", "uniswap"),
   ("BELT", "belt", "belt"),
   ("KSM", "kusama", "kusama"),
   ("SOLANA-SOLV", "solana-solv", "solana-solv"),
   ("AAVE-SOLV", "aave-solv", "aave-solv"),
   ("UNISWAP-V2", "uniswap-v2", "uniswap-v2"),
   ("DAPP", "dapp", "dapp"),
   ("BTS", "bitshares", "bitshares"),
   ("SKY", "skycoin", "skycoin"),
   ("ALGO", "algorand", "algorand")]

/-- The supported crypto codes (the keys of CRYPTO_MAPPING). -/
def cryptoCodes : List String := CRYPTO_MAPPING.map Prod.fst

/-- CRYPTO_MAPPING[c]["coingecko"]; only used after validation. -/
def geckoId (c : String) : String :=
  ((CRYPTO_MAPPING.find? (fun p => p.1 == c)).map (fun p => p.2.1)).getD ""

/-- CRYPTO_MAPPING[c]["coincap"]; only used after validation. -/
def capId (c : String) : String :=
  ((CRYPTO_MAPPING.find? (fun p => p.1 == c)).map (fun p => p.2.2)).getD ""

/-- Parsed response shape shared by open.er-api.com and frankfurter.app as
the source reads them: HTTP status, an optional error marker (for er-api
the `result == "error"` branch with its error-type, for frankfurter the
`error` key), and the optional `rates` table. -/
structure RatesResp where
  status : Nat
  errField : Option String
  rates : Option (List (String × ℚ))

/-- Parsed response of the jsdelivr currency-api endpoint: HTTP status and
the top-level `{target: rate}` table. -/
structure CurResp where
  status : Nat
  table : List (String × ℚ)

/-- Parsed CoinGecko simple/price response, for one (id, vs_currency)
query: HTTP status, whether the coin id key is present, and the price
under the vs_currency key if present. -/
structure GeckoResp where
  status : Nat
  idPresent : Bool
  price : Option ℚ

/-- Parsed CoinCap assets response: HTTP status, whether the `data` field
is present, and the `priceUsd` value (already parsed from its string
form) if present. -/
structure CapResp where
  status : Nat
  hasData : Bool
  priceUsd : Option ℚ

/-- Parsed CryptoCompare data/price response for one (fsym, tsym) query:
HTTP status and the price under the tsym key if present. -/
structure CCResp where
  status : Nat
  price : Option ℚ

/-- The outside world: one field per external endpoint, keyed by the
request parameters the source puts in the URL or query string. `none`
models a transport or JSON-parse failure of that request. -/
structure Env where
  erApi : String → Option RatesResp
  frankfurter : String → String → Option RatesResp
  currencyApi : String → String → Option CurResp
  coingecko : String → String → Option GeckoResp
  coincap : String → Option CapResp
  cryptocompare : String → String → Option CCResp

/-- An environment in which every HTTP request fails at the transport
layer. -/
def envDown : Env :=
  ⟨fun _ => none, fun _ _ => none, fun _ _ => none,
   fun _ _ => none, fun _ => none, fun _ _ => none⟩

/-- Outcome of one provider try-block: a returned (rate, metadata), a
recoverable failure that appended a diagnostic to error_messages, or a
recoverable failure that appended nothing (transport / JSON errors). -/
inductive Attempt where
  | ok (rate : ℚ) (meta : Meta)
  | failMsg (msg : String)
  | failSilent
deriving DecidableEq

/-- Whether the attempt failed (did not return). -/
def Attempt.failed : Attempt → Bool
  | .ok .. => false
  | _ => true

/-- The sequential try-blocks of the source: the first attempt that
returns wins. -/
def firstOk : List Attempt → Option (ℚ × Meta)
  | [] => none
  | .ok r m :: _ => some (r, m)
  | _ :: rest => firstOk rest

/-- The error_messages list accumulated across the attempts. -/
def collectMsgs : List Attempt → List String
  | [] => []
  | .failMsg s :: rest => s :: collectMsgs rest
  | _ :: rest => collectMsgs rest

/-- Metadata dict returned by a successful fiat provider attempt
(timestamp, source, target, provider, type). -/
def fiatMeta (now : ℚ) (source target provider : String) : Meta :=
  [("timestamp", .num now), ("source", .str source), ("target", .str target),
   ("provider", .str provider), ("type", .str "fiat")]

/-- The ExchangeRate-API try-block of get_fiat_rate (fiat_client.py,
lines 154-196), called with the already uppercased codes. -/
def tryErApi (env : Env) (now : ℚ) (source target : String) : Attempt :=
  match env.erApi source with
  | none => .failSilent
  | some r =>
    if r.status ≠ 200 then
      .failMsg ("ExchangeRate-API returned status code " ++ toString r.status)
    else
      match r.errField with
      | some et => .failMsg ("ExchangeRate-API error: " ++ et)
      | none =>
        match r.rates with
        | none => .failMsg "ExchangeRate-API response missing \x27rates\x27 key"
        | some tbl =>
          match dget tbl target with
          | none =>
            .failMsg ("ExchangeRate-API: Target currency " ++ target ++ " not found in rates")
          | some q => .ok q (fiatMeta now source target "ExchangeRate-API")

/-- The Frankfurter try-block of get_fiat_rate (fiat_client.py,
lines 198-237). -/
def tryFrankfurter (env : Env) (now : ℚ) (source target : String) : Attempt :=
  match env.frankfurter source target with
  | none => .failSilent
  | some r =>
    if r.status ≠ 200 then
      .failMsg ("Frankfurter API returned status code " ++ toString r.status)
    else
      match r.errField with
      | some et => .failMsg ("Frankfurter API error: " ++ et)
      | none =>
        match r.rates with
        | none => .failMsg "Frankfurter API response missing \x27rates\x27 key"
        | some tbl =>
          match dget tbl target with
          | none =>
            .failMsg ("Frankfurter API: Target currency " ++ target ++ " not found in rates")
          | some q => .ok q (fiatMeta now source target "Frankfurter API (Backup)")

/-- The CurrencyAPI try-block of get_fiat_rate (fiat_client.py,
lines 240-269). -/
def tryCurrencyApi (env : Env) (now : ℚ) (source target : String) : Attempt :=
  match env.currencyApi (pyLower source) (pyLower target) with
  | none => .failSilent
  | some r =>
    if r.status ≠ 200 then
      .failMsg ("CurrencyAPI returned status code " ++ toString r.status)
    else
      match dget r.table (pyLower target) with
      | none =>
        .failMsg ("CurrencyAPI: Target currency " ++ target ++ " not found in response")
      | some q => .ok q (fiatMeta now source target "CurrencyAPI (Second Backup)")

/-- The message of the RuntimeError raised when all fiat providers fail
(fiat_client.py, lines 271-274); on that path apis_tried is exactly the
three providers in order. -/
def fiatExhaustMsg (msgs : List String) : String :=
  "Failed to retrieve fiat exchange rate after trying " ++
    String.intercalate ", " ["ExchangeRate-API", "Frankfurter", "CurrencyAPI"] ++
    ". Errors: " ++ String.intercalate " | " msgs

/-- get_fiat_rate from src/api/fiat_client.py, lines 117-274. -/
def get_fiat_rate (env : Env) (now : ℚ) (source0 target0 : String) :
    Except PyErr (ℚ × Meta) :=
  let source := (pyUpper source0)
  let target := (pyUpper target0)
  if source ∉ FIAT_CURRENCIES then
    .error (.valueError ("Invalid currency code: Unsupported fiat currency: " ++ source))
  else if target ∉ FIAT_CURRENCIES then
    .error (.valueError ("Invalid currency code: Unsupported fiat currency: " ++ target))
  else if source = target then
    .ok (1, fiatMeta now source target "self")
  else
    match firstOk [tryErApi env now source target, tryFrankfurter env now source target,
        tryCurrencyApi env now source target] with
    | some (r, m) => .ok (r, m)
    | none =>
      .error (.runtimeError (fiatExhaustMsg (collectMsgs
        [tryErApi env now source target, tryFrankfurter env now source target,
         tryCurrencyApi env now source target])))

/-- Metadata dict returned by a successful crypto provider attempt
(crypto_client.py); `fiat` is the lowercased fiat code, as in the
source. -/
def cryptoMeta (now : ℚ) (crypto fiat provider : String) : Meta :=
  [("timestamp", .num now), ("source", .str crypto), ("target", .str fiat),
   ("provider", .str provider), ("type", .str "crypto")]

/-- The CoinGecko try-block of get_crypto_rate (crypto_client.py,
lines 81-124), called with the uppercased crypto code and lowercased
fiat code. -/
def tryCoinGecko (env : Env) (now : ℚ) (crypto fiat : String) : Attempt :=
  match env.coingecko (geckoId crypto) fiat with
  | none => .failSilent
  | some r =>
    if r.status ≠ 200 then
      .failMsg ("CoinGecko returned status code " ++ toString r.status)
    else if !r.idPresent then
      .failMsg ("CoinGecko: No data found for " ++ crypto)
    else
      match r.price with
      | none => .failMsg ("CoinGecko: No " ++ fiat ++ " price found for " ++ crypto)
      | some p => .ok p (cryptoMeta now crypto fiat "CoinGecko")

/-- The CoinCap try-block of get_crypto_rate (crypto_client.py,
lines 127-176), including the USD pivot through get_fiat_rate for a
non-USD fiat target. -/
def tryCoinCap (env : Env) (now : ℚ) (crypto fiat : String) : Attempt :=
  match env.coincap (capId crypto) with
  | none => .failSilent
  | some r =>
    if r.status ≠ 200 then
      .failMsg ("CoinCap returned status code " ++ toString r.status)
    else if !r.hasData then
      .failMsg "CoinCap: Response missing \x27data\x27 field"
    else
      match r.priceUsd with
      | none => .failMsg ("CoinCap: No price data for " ++ crypto)
      | some usd =>
        if fiat ≠ "usd" then
          match get_fiat_rate env now "USD" (pyUpper fiat) with
          | .ok (f, _) => .ok (usd * f) (cryptoMeta now crypto fiat "CoinCap")
          | .error e =>
            .failMsg ("Failed to convert USD to " ++ (pyUpper fiat) ++ ": " ++ errStr e)
        else .ok usd (cryptoMeta now crypto fiat "CoinCap")

/-- The CryptoCompare try-block of get_crypto_rate (crypto_client.py,
lines 178-207). -/
def tryCryptoCompare (env : Env) (now : ℚ) (crypto fiat : String) : Attempt :=
  match env.cryptocompare crypto (pyUpper fiat) with
  | none => .failSilent
  | some r =>
    if r.status ≠ 200 then
      .failMsg ("CryptoCompare returned status code " ++ toString r.status)
    else
      match r.price with
      | none => .failMsg ("CryptoCompare: No " ++ (pyUpper fiat) ++ " price found for " ++ crypto)
      | some p => .ok p (cryptoMeta now crypto fiat "CryptoCompare (Second Backup)")

/-- The diagnostic string in the zero-rate sentinel of get_crypto_rate
(crypto_client.py, lines 209-224); on that path apis_tried is exactly the
three providers in order. -/
def cryptoExhaustMsg (msgs : List String) : String :=
  "Failed to retrieve cryptocurrency rate after trying " ++
    String.intercalate ", " ["CoinGecko", "CoinCap", "CryptoCompare"] ++
    ". Errors: " ++ String.intercalate " | " msgs

/-- The zero-rate sentinel metadata of get_crypto_rate (crypto_client.py,
lines 215-224). -/
def cryptoErrMeta (now : ℚ) (crypto fiat : String) (msgs : List String) : Meta :=
  [("timestamp", .num now), ("source", .str crypto), ("target", .str fiat),
   ("provider", .str "Error"), ("type", .str "crypto"),
   ("error", .str (cryptoExhaustMsg msgs)), ("rate", .num 0)]

/-- get_crypto_rate from src/api/crypto_client.py, lines 58-230. On total
provider failure it does not raise: it returns the zero-rate sentinel. -/
def get_crypto_rate (env : Env) (now : ℚ) (crypto0 fiat0 : String) :
    Except PyErr (ℚ × Meta) :=
  if (pyUpper crypto0) ∉ cryptoCodes then
    .error (.valueError ("Unsupported cryptocurrency: " ++ crypto0))
  else if (pyUpper fiat0) ∉ FIAT_CURRENCIES then
    .error (.valueError ("Unsupported fiat currency: " ++ fiat0))
  else
    let crypto := (pyUpper crypto0)
    let fiat := (pyLower fiat0)
    match firstOk [tryCoinGecko env now crypto fiat, tryCoinCap env now crypto fiat,
        tryCryptoCompare env now crypto fiat] with
    | some (r, m) => .ok (r, m)
    | none =>
      .ok (0, cryptoErrMeta now crypto fiat (collectMsgs
        [tryCoinGecko env now crypto fiat, tryCoinCap env now crypto fiat,
         tryCryptoCompare env now crypto fiat]))

/-- CACHE_TTL from src/core/cache.py. -/
def CACHE_TTL : ℚ := 1800

/-- One slot of st.session_state.rate_cache: the rate, a heap address of
the metadata dict the entry holds a reference to, and the two
timestamps. -/
structure Entry where
  rate : ℚ
  metaRef : Nat
  expires_at : ℚ
  created_at : ℚ
deriving DecidableEq

/-- The mutable session state: a heap of metadata dicts (addresses are
list indices) and the rate_cache dict. -/
structure CState where
  heap : List Meta
  cache : List (String × Entry)
deriving DecidableEq

/-- A fresh session: empty heap, empty rate_cache. -/
def emptyState : CState := ⟨[], []⟩

/-- Dereference a heap address (addresses handed out by `alloc` are
always in range; out-of-range reads default to the empty dict). -/
def heapGet (st : CState) (a : Nat) : Meta := st.heap.getD a []

/-- Creation of a fresh dict object: append to the heap, return its
address. -/
def alloc (st : CState) (m : Meta) : Nat × CState :=
  (st.heap.length, ⟨st.heap ++ [m], st.cache⟩)

/-- In-place mutation of the dict at address `a`. -/
def heapSet (st : CState) (a : Nat) (m : Meta) : CState :=
  ⟨st.heap.set a m, st.cache⟩

/-- get_cache_key from src/core/cache.py, line 16-18. -/
def get_cache_key (source target : String) : String :=
  (pyUpper source) ++ "_" ++ (pyUpper target)

/-- cache_rate from src/core/cache.py, lines 20-58. The direct entry is
stored first; `inverse_rate = 1 / rate` then raises ZeroDivisionError
when `rate == 0`, leaving the direct entry in place. The inverse entry
holds a copy of the metadata (a fresh heap object) with its `rate`
replaced and `is_inverse` set. -/
def cache_rate (st : CState) (now : ℚ) (source target : String) (rate : ℚ)
    (metaRef : Nat) : Except PyErr Unit × CState :=
  let ck := get_cache_key source target
  let st1 : CState := ⟨st.heap, dset st.cache ck ⟨rate, metaRef, now + CACHE_TTL, now⟩⟩
  if rate = 0 then (.error .zeroDivisionError, st1)
  else
    let invMeta := dset (dset (heapGet st1 metaRef) "rate" (.num (1 / rate)))
      "is_inverse" (.bool true)
    let (b, st2) := alloc st1 invMeta
    (.ok (), ⟨st2.heap, dset st2.cache (get_cache_key target source)
      ⟨1 / rate, b, now + CACHE_TTL, now⟩⟩)

/-- get_cached_rate from src/core/cache.py, lines 60-91. Returns a copy
of the stored metadata (a plain value here; the caller allocates it if
the object is handed out) with the cache bookkeeping fields added. -/
def get_cached_rate (st : CState) (now : ℚ) (source target : String)
    (allowExpired : Bool) : Option Meta :=
  match dget st.cache (get_cache_key source target) with
  | none => none
  | some e =>
    if now ≤ e.expires_at ∨ allowExpired then
      let base := dset (dset (dset (heapGet st e.metaRef) "rate" (.num e.rate))
        "cached" (.bool true)) "cache_age" (.num (now - e.created_at))
      some (if allowExpired ∧ e.expires_at < now then
          dset (dset base "cache_expired" (.bool true))
            "seconds_expired" (.num (now - e.expires_at))
        else base)
    else none

/-- is_crypto from src/core/converter.py, lines 9-20. -/
def is_crypto (c : String) : Bool := (pyUpper c) ∈ cryptoCodes

/-- The value of the mandatory `rate` key of a metadata dict
(`cached_data["rate"]` in the source; every dict it is read from carries
the key, the default is never reached). -/
def rateOf (m : Meta) : ℚ :=
  match dget m "rate" with
  | some (.num q) => q
  | _ => 0

/-- The body of the try-block of get_exchange_rate up to the cache write
(converter.py, lines 44-106): classify the pair and compute (rate,
metadata) through the providers. Python float divisions by zero raise,
hence the explicit zero tests. -/
def caseComputation (env : Env) (now : ℚ) (source target : String) :
    Except PyErr (ℚ × Meta) :=
  if is_crypto source then
    if is_crypto target then do
      let (s_usd, _) ← get_crypto_rate env now source "USD"
      let (t_usd, _) ← get_crypto_rate env now target "USD"
      if t_usd = 0 then .error .zeroDivisionError
      else
        .ok (s_usd / t_usd,
          [("timestamp", .num now), ("source_api", .str "CoinGecko"),
           ("rate", .num (s_usd / t_usd)), ("source_usd_rate", .num s_usd),
           ("target_usd_rate", .num t_usd)])
    else if target = "USD" then
      get_crypto_rate env now source "USD"
    else do
      let (c_usd, _) ← get_crypto_rate env now source "USD"
      let (u_f, _) ← get_fiat_rate env now "USD" target
      .ok (c_usd * u_f,
        [("timestamp", .num now), ("source_api", .str "CoinGecko + ExchangeRate-API"),
         ("rate", .num (c_usd * u_f)), ("crypto_usd_rate", .num c_usd),
         ("usd_fiat_rate", .num u_f)])
  else if is_crypto target then
    if source = "USD" then do
      let (u_c, _) ← get_crypto_rate env now target "USD"
      if u_c = 0 then .error .zeroDivisionError
      else
        .ok (1 / u_c,
          [("timestamp", .num now), ("source_api", .str "CoinGecko"),
           ("rate", .num (1 / u_c)), ("usd_crypto_rate", .num u_c)])
    else do
      let (f_usd, _) ← get_fiat_rate env now source "USD"
      let (u_c, _) ← get_crypto_rate env now target "USD"
      if u_c = 0 then .error .zeroDivisionError
      else
        .ok (f_usd * (1 / u_c),
          [("timestamp", .num now), ("source_api", .str "ExchangeRate-API + CoinGecko"),
           ("rate", .num (f_usd * (1 / u_c))), ("fiat_usd_rate", .num f_usd),
           ("usd_crypto_rate", .num u_c)])
  else
    get_fiat_rate env now source target

/-- The whole try-block of get_exchange_rate (converter.py, lines
44-111): compute the quote, allocate its metadata dict, write through to
the cache. A raise inside cache_rate keeps the partial cache write. -/
def resolveBody (env : Env) (st : CState) (now : ℚ) (source target : String) :
    Except PyErr (ℚ × Nat) × CState :=
  match caseComputation env now source target with
  | .error e => (.error e, st)
  | .ok (rate, meta) =>
    let (a, st1) := alloc st meta
    match cache_rate st1 now source target rate a with
    | (.ok _, st2) => (.ok (rate, a), st2)
    | (.error e, st2) => (.error e, st2)

/-- The metadata mutations of the expired-cache branch of the
except-block (converter.py, lines 128-141): warning, the triggering
error message, and the minute-granularity age fields added when their
second-granularity counterparts are present. -/
def expiredMeta (m0 : Meta) (e : PyErr) : Meta :=
  let m1 : Meta := dset (dset m0 "warning" (.str "Using expired cached rate due to API error"))
    "error_details" (.str (errStr e))
  let m2 : Meta := match dget m1 "cache_age" with
    | some (.num q) => dset m1 "cache_age_minutes" (.num (pyRound1 (q / 60)))
    | _ => m1
  match dget m2 "seconds_expired" with
  | some (.num q) => dset m2 "minutes_expired" (.num (pyRound1 (q / 60)))
  | _ => m2

/-- The except-block of get_exchange_rate (converter.py, lines 113-159):
fresh cache, then expired cache with warning, error message and
minute-granularity age fields, then the zero-rate error sentinel. -/
def errorFallback (st : CState) (now : ℚ) (source target : String) (e : PyErr) :
    ℚ × Nat × CState :=
  match get_cached_rate st now source target false with
  | some m0 =>
    let m := dset (dset m0 "warning" (.str "Using cached rate due to API error (recent cache)"))
      "error_details" (.str (errStr e))
    let (a, st1) := alloc st m
    (rateOf m, a, st1)
  | none =>
    match get_cached_rate st now source target true with
    | some m0 =>
      let (a, st1) := alloc st (expiredMeta m0 e)
      (rateOf (expiredMeta m0 e), a, st1)
    | none =>
      let em : Meta :=
        [("timestamp", .num now), ("source", .str source), ("target", .str target),
         ("rate", .num 0), ("error", .bool true),
         ("error_message", .str ("Failed to get exchange rate and no cached data available: " ++ errStr e)),
         ("warning", .str "Using fallback zero rate due to API errors and no cache available")]
      let (a, st1) := alloc st em
      (0, a, st1)

/-- get_exchange_rate from src/core/converter.py, lines 22-159. Returns
the rate, the heap address of the metadata dict handed to the caller,
and the session state after the call; it never raises. -/
def get_exchange_rate (env : Env) (st : CState) (now : ℚ) (source target : String) :
    ℚ × Nat × CState :=
  match get_cached_rate st now source target false with
  | some m =>
    let (a, st1) := alloc st m
    (rateOf m, a, st1)
  | none =>
    match resolveBody env st now source target with
    | (.ok (r, a), st1) => (r, a, st1)
    | (.error e, st1) => errorFallback st1 now source target e

/-- convert_currency from src/core/converter.py, lines 161-182: multiply,
then add the two conversion fields to the returned metadata dict in
place (through its heap address). -/
def convert_currency (env : Env) (st : CState) (now : ℚ) (amount : ℚ)
    (source target : String) : ℚ × Nat × CState :=
  let (rate, a, st1) := get_exchange_rate env st now source target
  let converted := amount * rate
  let m := dset (dset (heapGet st1 a) "converted_amount" (.num converted))
    "original_amount" (.num amount)
  (converted, a, heapSet st1 a m)

theorem dget_dset_self {β : Type} (l : List (String × β)) (k : String) (v : β) :
    dget (dset l k v) k = some v := by
  induction l with
  | nil => simp [dset, dget]
  | cons p rest ih =>
    obtain ⟨k0, v0⟩ := p
    by_cases h : k0 = k
    · simp [dset, dget, h]
    · simp [dset, dget, h, ih]

theorem dget_dset_ne {β : Type} (l : List (String × β)) (k k2 : String) (v : β)
    (h : k ≠ k2) : dget (dset l k v) k2 = dget l k2 := by
  induction l with
  | nil => simp [dset, dget, h]
  | cons p rest ih =>
    obtain ⟨k0, v0⟩ := p
    by_cases h0 : k0 = k
    · subst h0
      simp [dset, dget, h]
    · simp [dset, dget, h0, ih]

theorem getD_append_cons (l : List Meta) (x : Meta) (rest : List Meta) (d : Meta) :
    (l ++ x :: rest).getD l.length d = x := by
  induction l with
  | nil => rfl
  | cons y l ih => simpa using ih

theorem getD_set_self (l : List Meta) (n : Nat) (x d : Meta) (h : n < l.length) :
    (l.set n x).getD n d = x := by
  induction l generalizing n with
  | nil => simp at h
  | cons y l ih =>
    cases n with
    | zero => rfl
    | succ n => simpa using ih n (by simpa using h)

theorem firstOk_cons_failed (a : Attempt) (rest : List Attempt)
    (h : a.failed = true) : firstOk (a :: rest) = firstOk rest := by
  cases a with
  | ok r m => simp [Attempt.failed] at h
  | failMsg s => rfl
  | failSilent => rfl

theorem firstOk_all_failed (a1 a2 a3 : Attempt) (h1 : a1.failed = true)
    (h2 : a2.failed = true) (h3 : a3.failed = true) :
    firstOk [a1, a2, a3] = none := by
  rw [firstOk_cons_failed a1 _ h1, firstOk_cons_failed a2 _ h2,
    firstOk_cons_failed a3 _ h3]
  rfl

theorem dget_fiatMeta_provider (now : ℚ) (s t p : String) :
    dget (fiatMeta now s t p) "provider" = some (.str p) := by
  simp [fiatMeta, dget]

theorem dget_cryptoMeta_provider (now : ℚ) (s t p : String) :
    dget (cryptoMeta now s t p) "provider" = some (.str p) := by
  simp [cryptoMeta, dget]

/-- C2: for every pair (A, B) and rate r for which cache_rate completes
(r is nonzero), the same call writes the reciprocal entry at key (B, A),
and get_cached_rate (B, A) inside the TTL window returns a metadata dict
whose rate is exactly 1/r (rationals model the floats, so the
reciprocity is exact, within any tolerance). -/
theorem spec_C2 (st : CState) (now now2 : ℚ) (A B : String) (r : ℚ) (a : Nat)
    (hr : r ≠ 0) (ht : now2 ≤ now + CACHE_TTL) :
    (cache_rate st now A B r a).1 = .ok () ∧
    ∃ m, get_cached_rate (cache_rate st now A B r a).2 now2 B A false = some m ∧
      dget m "rate" = some (.num (1 / r)) ∧ rateOf m = 1 / r := by
  refine ⟨by simp [cache_rate, hr], ?_⟩
  simp only [cache_rate, if_neg hr, alloc, get_cached_rate, dget_dset_self,
    Bool.false_eq_true, false_and, if_false]
  rw [if_pos (Or.inl ht)]
  refine ⟨_, rfl, ?_, ?_⟩
  · rw [dget_dset_ne _ "cache_age" "rate" _ (by decide),
      dget_dset_ne _ "cached" "rate" _ (by decide), dget_dset_self]
  · unfold rateOf
    rw [dget_dset_ne _ "cache_age" "rate" _ (by decide),
      dget_dset_ne _ "cached" "rate" _ (by decide), dget_dset_self]

/-- Witness for C2 at a concrete input: caching EUR per USD at 9/10
makes the (EUR, USD) slot read back exactly the reciprocal. -/
theorem spec_C2_w :
    (cache_rate emptyState 0 "USD" "EUR" (9 / 10) 0).1 = .ok () ∧
    ∃ m, get_cached_rate (cache_rate emptyState 0 "USD" "EUR" (9 / 10) 0).2
        0 "EUR" "USD" false = some m ∧
      dget m "rate" = some (.num (1 / (9 / 10))) ∧ rateOf m = 1 / (9 / 10) :=
  spec_C2 emptyState 0 0 "USD" "EUR" (9 / 10) 0 (by norm_num) (by norm_num [CACHE_TTL])

/-- Counterexample to C3 as stated: cache_rate with rate 0 does fail with
ZeroDivisionError, but the cache state is not unchanged — the direct
(source, target) entry with rate 0 is left behind, because the source
stores it before computing the reciprocal. -/
theorem spec_C3_cex :
    (cache_rate emptyState 0 "USD" "EUR" 0 0).1 = .error .zeroDivisionError ∧
    dget (cache_rate emptyState 0 "USD" "EUR" 0 0).2.cache
      (get_cache_key "USD" "EUR") = some ⟨0, 0, 1800, 0⟩ := by
  refine ⟨rfl, ?_⟩
  have h1 : (cache_rate emptyState 0 "USD" "EUR" 0 0).2.cache =
      dset emptyState.cache (get_cache_key "USD" "EUR") ⟨0, 0, 0 + CACHE_TTL, 0⟩ := rfl
  rw [h1, dget_dset_self]
  norm_num [CACHE_TTL]

/-- C3 amended: cache_rate called with rate 0 fails with
ZeroDivisionError (the reciprocal is undefined), but only after the
direct (source, target) entry with rate 0 has been written; the inverse
(target, source) slot is left exactly as it was. -/
theorem spec_C3 (st : CState) (now : ℚ) (source target : String) (a : Nat)
    (hk : get_cache_key target source ≠ get_cache_key source target) :
    (cache_rate st now source target 0 a).1 = .error .zeroDivisionError ∧
    dget (cache_rate st now source target 0 a).2.cache (get_cache_key source target) =
      some ⟨0, a, now + CACHE_TTL, now⟩ ∧
    dget (cache_rate st now source target 0 a).2.cache (get_cache_key target source) =
      dget st.cache (get_cache_key target source) := by
  simp only [cache_rate, if_pos rfl]
  exact ⟨rfl, dget_dset_self .., dget_dset_ne _ _ _ _ (Ne.symm hk)⟩

/-- Witness for C3 amended at a concrete input. -/
theorem spec_C3_w :
    (cache_rate emptyState 0 "USD" "EUR" 0 0).1 = .error .zeroDivisionError ∧
    dget (cache_rate emptyState 0 "USD" "EUR" 0 0).2.cache
      (get_cache_key "USD" "EUR") = some ⟨0, 0, 0 + CACHE_TTL, 0⟩ ∧
    dget (cache_rate emptyState 0 "USD" "EUR" 0 0).2.cache
      (get_cache_key "EUR" "USD") = dget emptyState.cache (get_cache_key "EUR" "USD") := by
  exact spec_C3 emptyState 0 "USD" "EUR" 0 (by decide)

theorem tryErApi_ok_provider (env : Env) (now : ℚ) (s t : String) (r : ℚ) (m : Meta)
    (h : tryErApi env now s t = .ok r m) :
    dget m "provider" = some (.str "ExchangeRate-API") := by
  unfold tryErApi at h
  repeat' split at h
  all_goals simp_all
  all_goals exact h.2 ▸ dget_fiatMeta_provider ..

theorem tryFrankfurter_ok_provider (env : Env) (now : ℚ) (s t : String) (r : ℚ) (m : Meta)
    (h : tryFrankfurter env now s t = .ok r m) :
    dget m "provider" = some (.str "Frankfurter API (Backup)") := by
  unfold tryFrankfurter at h
  repeat' split at h
  all_goals simp_all
  all_goals exact h.2 ▸ dget_fiatMeta_provider ..

theorem tryCurrencyApi_ok_provider (env : Env) (now : ℚ) (s t : String) (r : ℚ) (m : Meta)
    (h : tryCurrencyApi env now s t = .ok r m) :
    dget m "provider" = some (.str "CurrencyAPI (Second Backup)") := by
  unfold tryCurrencyApi at h
  repeat' split at h
  all_goals simp_all
  all_goals exact h.2 ▸ dget_fiatMeta_provider ..

/-- C5: when every crypto provider attempt fails, get_crypto_rate does
not raise: it returns a sentinel quote with rate 0, provider "Error" and
an error field holding the concatenation of the diagnostics recorded by
the attempted providers; by contrast, get_fiat_rate raises a
RuntimeError when all of its providers fail. -/
theorem spec_C5 (env : Env) (now : ℚ) (crypto fiat s t : String)
    (hc : pyUpper crypto ∈ cryptoCodes) (hf : pyUpper fiat ∈ FIAT_CURRENCIES)
    (h1 : (tryCoinGecko env now (pyUpper crypto) (pyLower fiat)).failed = true)
    (h2 : (tryCoinCap env now (pyUpper crypto) (pyLower fiat)).failed = true)
    (h3 : (tryCryptoCompare env now (pyUpper crypto) (pyLower fiat)).failed = true)
    (hs : pyUpper s ∈ FIAT_CURRENCIES) (ht : pyUpper t ∈ FIAT_CURRENCIES)
    (hst : pyUpper s ≠ pyUpper t)
    (g1 : (tryErApi env now (pyUpper s) (pyUpper t)).failed = true)
    (g2 : (tryFrankfurter env now (pyUpper s) (pyUpper t)).failed = true)
    (g3 : (tryCurrencyApi env now (pyUpper s) (pyUpper t)).failed = true) :
    get_crypto_rate env now crypto fiat = .ok (0,
      cryptoErrMeta now (pyUpper crypto) (pyLower fiat) (collectMsgs
        [tryCoinGecko env now (pyUpper crypto) (pyLower fiat),
         tryCoinCap env now (pyUpper crypto) (pyLower fiat),
         tryCryptoCompare env now (pyUpper crypto) (pyLower fiat)])) ∧
    (∀ msgs, dget (cryptoErrMeta now (pyUpper crypto) (pyLower fiat) msgs) "provider" =
      some (.str "Error") ∧
      dget (cryptoErrMeta now (pyUpper crypto) (pyLower fiat) msgs) "rate" = some (.num 0) ∧
      dget (cryptoErrMeta now (pyUpper crypto) (pyLower fiat) msgs) "error" =
        some (.str (cryptoExhaustMsg msgs))) ∧
    get_fiat_rate env now s t = .error (.runtimeError (fiatExhaustMsg (collectMsgs
      [tryErApi env now (pyUpper s) (pyUpper t), tryFrankfurter env now (pyUpper s) (pyUpper t),
       tryCurrencyApi env now (pyUpper s) (pyUpper t)]))) := by
  refine ⟨?_, ?_, ?_⟩
  · simp only [get_crypto_rate]
    rw [if_neg (not_not_intro hc), if_neg (not_not_intro hf),
      firstOk_all_failed _ _ _ h1 h2 h3]
  · intro msgs
    refine ⟨?_, ?_, ?_⟩ <;> simp [cryptoErrMeta, dget]
  · simp only [get_fiat_rate]
    rw [if_neg (not_not_intro hs), if_neg (not_not_intro ht), if_neg hst,
      firstOk_all_failed _ _ _ g1 g2 g3]

/-- Witness for C5 at a concrete input: with every request failing at the
transport layer, get_crypto_rate BTC/USD returns the zero-rate "Error"
sentinel while get_fiat_rate USD/EUR raises. -/
theorem spec_C5_w :
    get_crypto_rate envDown 0 "BTC" "USD" = .ok (0, cryptoErrMeta 0 "BTC" "usd"
      (collectMsgs [tryCoinGecko envDown 0 "BTC" "usd", tryCoinCap envDown 0 "BTC" "usd",
        tryCryptoCompare envDown 0 "BTC" "usd"])) ∧
    (∀ msgs, dget (cryptoErrMeta 0 "BTC" "usd" msgs) "provider" = some (.str "Error") ∧
      dget (cryptoErrMeta 0 "BTC" "usd" msgs) "rate" = some (.num 0) ∧
      dget (cryptoErrMeta 0 "BTC" "usd" msgs) "error" = some (.str (cryptoExhaustMsg msgs))) ∧
    get_fiat_rate envDown 0 "USD" "EUR" = .error (.runtimeError (fiatExhaustMsg (collectMsgs
      [tryErApi envDown 0 "USD" "EUR", tryFrankfurter envDown 0 "USD" "EUR",
       tryCurrencyApi envDown 0 "USD" "EUR"]))) :=
  spec_C5 envDown 0 "BTC" "USD" "USD" "EUR" (by decide) (by decide) rfl rfl rfl
    (by decide) (by decide) (by decide) rfl rfl rfl

/-- Counterexample to C6 as stated: with all three fiat providers failing
at the transport layer, all three providers are attempted but the
exhaustion error carries zero diagnostics, not one per attempt. -/
theorem spec_C6_cex :
    (tryErApi envDown 0 "USD" "EUR").failed = true ∧
    (tryFrankfurter envDown 0 "USD" "EUR").failed = true ∧
    (tryCurrencyApi envDown 0 "USD" "EUR").failed = true ∧
    collectMsgs [tryErApi envDown 0 "USD" "EUR", tryFrankfurter envDown 0 "USD" "EUR",
      tryCurrencyApi envDown 0 "USD" "EUR"] = [] ∧
    get_fiat_rate envDown 0 "USD" "EUR" = .error (.runtimeError
      "Failed to retrieve fiat exchange rate after trying ExchangeRate-API, Frankfurter, CurrencyAPI. Errors: ") := by
  exact ⟨rfl, rfl, rfl, rfl, rfl⟩

/-- C6 amended: get_fiat_rate tries its providers strictly in order;
the first success is returned immediately with provider_name naming the
answering provider; a failing attempt is recovered, recording one
diagnostic when the failure is detected by a response check and none
when the request itself raised; on total failure it raises an error
naming the ordered providers attempted and listing the recorded
diagnostics (at most one per attempt). -/
theorem spec_C6 (env : Env) (now : ℚ) (s t : String)
    (hs : pyUpper s ∈ FIAT_CURRENCIES) (ht : pyUpper t ∈ FIAT_CURRENCIES)
    (hst : pyUpper s ≠ pyUpper t) :
    (∀ r m, tryErApi env now (pyUpper s) (pyUpper t) = .ok r m →
      get_fiat_rate env now s t = .ok (r, m) ∧
      dget m "provider" = some (.str "ExchangeRate-API")) ∧
    ((tryErApi env now (pyUpper s) (pyUpper t)).failed = true →
      ∀ r m, tryFrankfurter env now (pyUpper s) (pyUpper t) = .ok r m →
      get_fiat_rate env now s t = .ok (r, m) ∧
      dget m "provider" = some (.str "Frankfurter API (Backup)")) ∧
    ((tryErApi env now (pyUpper s) (pyUpper t)).failed = true →
      (tryFrankfurter env now (pyUpper s) (pyUpper t)).failed = true →
      ∀ r m, tryCurrencyApi env now (pyUpper s) (pyUpper t) = .ok r m →
      get_fiat_rate env now s t = .ok (r, m) ∧
      dget m "provider" = some (.str "CurrencyAPI (Second Backup)")) ∧
    ((tryErApi env now (pyUpper s) (pyUpper t)).failed = true →
      (tryFrankfurter env now (pyUpper s) (pyUpper t)).failed = true →
      (tryCurrencyApi env now (pyUpper s) (pyUpper t)).failed = true →
      get_fiat_rate env now s t = .error (.runtimeError (fiatExhaustMsg (collectMsgs
        [tryErApi env now (pyUpper s) (pyUpper t),
         tryFrankfurter env now (pyUpper s) (pyUpper t),
         tryCurrencyApi env now (pyUpper s) (pyUpper t)])))) := by
  refine ⟨?_, ?_, ?_, ?_⟩
  · intro r m h
    refine ⟨?_, tryErApi_ok_provider _ _ _ _ _ _ h⟩
    unfold get_fiat_rate
    rw [if_neg (not_not_intro hs), if_neg (not_not_intro ht), if_neg hst, h]
    rfl
  · intro f1 r m h
    refine ⟨?_, tryFrankfurter_ok_provider _ _ _ _ _ _ h⟩
    unfold get_fiat_rate
    rw [if_neg (not_not_intro hs), if_neg (not_not_intro ht), if_neg hst]
    rw [show firstOk [tryErApi env now (pyUpper s) (pyUpper t),
        tryFrankfurter env now (pyUpper s) (pyUpper t),
        tryCurrencyApi env now (pyUpper s) (pyUpper t)] = some (r, m) from by
      rw [firstOk_cons_failed _ _ f1, h]; rfl]
  · intro f1 f2 r m h
    refine ⟨?_, tryCurrencyApi_ok_provider _ _ _ _ _ _ h⟩
    unfold get_fiat_rate
    rw [if_neg (not_not_intro hs), if_neg (not_not_intro ht), if_neg hst]
    rw [show firstOk [tryErApi env now (pyUpper s) (pyUpper t),
        tryFrankfurter env now (pyUpper s) (pyUpper t),
        tryCurrencyApi env now (pyUpper s) (pyUpper t)] = some (r, m) from by
      rw [firstOk_cons_failed _ _ f1, firstOk_cons_failed _ _ f2, h]; rfl]
  · intro f1 f2 f3
    unfold get_fiat_rate
    rw [if_neg (not_not_intro hs), if_neg (not_not_intro ht), if_neg hst,
      firstOk_all_failed _ _ _ f1 f2 f3]

/-- Witness for C6 amended at a concrete input: the primary provider
fails with a status diagnostic, Frankfurter answers 9/10 and is returned
tagged as the answering provider. -/
theorem spec_C6_w :
    get_fiat_rate
      ⟨fun _ => some ⟨500, none, none⟩,
       fun _ _ => some ⟨200, none, some [("EUR", 9 / 10)]⟩,
       fun _ _ => none, fun _ _ => none, fun _ => none, fun _ _ => none⟩
      0 "USD" "EUR" =
      .ok (9 / 10, fiatMeta 0 "USD" "EUR" "Frankfurter API (Backup)") ∧
    dget (fiatMeta 0 "USD" "EUR" "Frankfurter API (Backup)") "provider" =
      some (.str "Frankfurter API (Backup)") := by
  have h := (spec_C6
    ⟨fun _ => some ⟨500, none, none⟩,
     fun _ _ => some ⟨200, none, some [("EUR", 9 / 10)]⟩,
     fun _ _ => none, fun _ _ => none, fun _ => none, fun _ _ => none⟩
    0 "USD" "EUR" (by decide) (by decide) (by decide)).2.1
  exact h rfl (9 / 10) (fiatMeta 0 "USD" "EUR" "Frankfurter API (Backup)") rfl

/-- The metadata dict handed to the caller by a resolver result (the
returned heap address dereferenced in the final state). -/
def resultMeta (r : ℚ × Nat × CState) : Meta := heapGet r.2.2 r.2.1

theorem heapGet_alloc (st : CState) (m : Meta) :
    heapGet (alloc st m).2 (alloc st m).1 = m := by
  simp only [heapGet, alloc]
  exact getD_append_cons st.heap m [] []

/-- An environment in which only CoinGecko answers, with BTC at 50000
USD; every other request fails at the transport layer. -/
def envBtcOnly : Env :=
  ⟨fun _ => none, fun _ _ => none, fun _ _ => none,
   fun id _ => if id = "bitcoin" then some ⟨200, true, some 50000⟩ else none,
   fun _ => none, fun _ _ => none⟩

/-- An environment in which CoinGecko answers BTC at 50000 and ETH at
2500 USD; every other request fails at the transport layer. -/
def envCross : Env :=
  ⟨fun _ => none, fun _ _ => none, fun _ _ => none,
   fun id _ => if id = "bitcoin" then some ⟨200, true, some 50000⟩
     else if id = "ethereum" then some ⟨200, true, some 2500⟩ else none,
   fun _ => none, fun _ _ => none⟩

/-- Counterexample to C4 as stated: for the supported crypto code BTC
with every provider down, get_exchange_rate(BTC, BTC) does not return
rate 1.0 — both identity legs go through the provider chain, come back
as 0.0 sentinels, the cross-rate division raises, and the resolver
returns the zero-rate error quote. -/
theorem spec_C4_cex :
    (get_exchange_rate envDown emptyState 0 "BTC" "BTC").1 ≠ 1 := by
  have h : (get_exchange_rate envDown emptyState 0 "BTC" "BTC").1 = 0 := rfl
  rw [h]
  norm_num

/-- C4 amended: the identity short-circuit lives in get_fiat_rate, not
in the resolver: for a supported fiat code X with no fresh cache entry
for (X, X), get_exchange_rate(X, X) returns rate 1.0 and consults no
provider (the result is the same under any two environments); the
resolver checks its cache first, and crypto identity pairs go through
the provider chain instead (see the counterexample). -/
theorem spec_C4 (env env2 : Env) (st : CState) (now : ℚ) (X : String)
    (hX : pyUpper X ∈ FIAT_CURRENCIES) (hc : is_crypto X = false)
    (h0 : get_cached_rate st now X X false = none) :
    (get_exchange_rate env st now X X).1 = 1 ∧
    get_exchange_rate env st now X X = get_exchange_rate env2 st now X X := by
  have hcase : ∀ e : Env, caseComputation e now X X =
      .ok (1, fiatMeta now (pyUpper X) (pyUpper X) "self") := by
    intro e
    simp only [caseComputation, hc, Bool.false_eq_true, if_false, get_fiat_rate]
    rw [if_neg (not_not_intro hX), if_neg (not_not_intro hX)]
    simp
  constructor
  · simp only [get_exchange_rate, h0, resolveBody, hcase env]
    simp only [cache_rate, if_neg (one_ne_zero (α := ℚ))]
  · simp only [get_exchange_rate, h0, resolveBody, hcase env, hcase env2]

/-- Witness for C4 amended at a concrete input: identity on USD resolves
to 1 with all providers down, and the result is unchanged under a
different environment. -/
theorem spec_C4_w :
    (get_exchange_rate envDown emptyState 0 "USD" "USD").1 = 1 ∧
    get_exchange_rate envDown emptyState 0 "USD" "USD" =
      get_exchange_rate envCross emptyState 0 "USD" "USD" :=
  spec_C4 envDown envCross emptyState 0 "USD" (by decide) (by decide) rfl

/-- Counterexample to C7 as stated: a failed leg does not propagate out
of the crypto provider — get_crypto_rate with every provider failing
returns normally (the ok zero sentinel); and resolving BTC to ETH when
the ETH leg fails yields the zero-rate error quote from the resolver
fallback, not a raised leg failure. -/
theorem spec_C7_cex :
    (get_crypto_rate envDown 0 "ETH" "USD").isOk = true ∧
    (get_exchange_rate envBtcOnly emptyState 0 "BTC" "ETH").1 = 0 ∧
    dget (resultMeta (get_exchange_rate envBtcOnly emptyState 0 "BTC" "ETH")) "error" =
      some (.bool true) := by
  exact ⟨rfl, rfl, rfl⟩

/-- C7 amended: for a crypto pair both legs are fetched independently as
USD quotes and, when both come back nonzero, the resolver returns
rate = source_usd / target_usd; a failed leg does not propagate from
get_crypto_rate (it returns a 0.0 sentinel): a zero target leg aborts
the try-block at the cross-rate division with ZeroDivisionError, and a
zero source leg aborts it at the cache reciprocal write, after the
direct zero-rate entry has been stored. -/
theorem spec_C7 (env : Env) (st : CState) (now : ℚ) (A B : String) (a b : ℚ)
    (ma mb : Meta)
    (hA : is_crypto A = true) (hB : is_crypto B = true)
    (ha : get_crypto_rate env now A "USD" = .ok (a, ma))
    (hb : get_crypto_rate env now B "USD" = .ok (b, mb)) :
    (b ≠ 0 → a ≠ 0 → get_cached_rate st now A B false = none →
      (get_exchange_rate env st now A B).1 = a / b) ∧
    (b = 0 → resolveBody env st now A B = (.error .zeroDivisionError, st)) ∧
    (b ≠ 0 → a = 0 →
      (resolveBody env st now A B).1 = .error .zeroDivisionError ∧
      dget (resolveBody env st now A B).2.cache (get_cache_key A B) =
        some ⟨0, st.heap.length, now + CACHE_TTL, now⟩) := by
  have hcc : caseComputation env now A B =
      (if b = 0 then .error .zeroDivisionError else .ok (a / b,
        [("timestamp", .num now), ("source_api", .str "CoinGecko"),
         ("rate", .num (a / b)), ("source_usd_rate", .num a),
         ("target_usd_rate", .num b)])) := by
    simp only [caseComputation, hA, hB, if_true, ha, hb]
    rfl
  refine ⟨?_, ?_, ?_⟩
  · intro hb0 ha0 h0
    simp only [get_exchange_rate, h0, resolveBody, hcc, if_neg hb0]
    simp only [cache_rate, if_neg (div_ne_zero ha0 hb0)]
  · intro hb0
    simp only [resolveBody, hcc, if_pos hb0]
  · intro hb0 ha0
    subst ha0
    simp only [resolveBody, hcc, if_neg hb0, zero_div]
    simp only [cache_rate, if_pos rfl, alloc]
    exact ⟨rfl, dget_dset_self ..⟩

/-- Witness for C7 amended at the spec example: BTC/USD = 50000 and
ETH/USD = 2500 cross to exactly 20. -/
theorem spec_C7_w :
    (get_exchange_rate envCross emptyState 0 "BTC" "ETH").1 = 20 := by
  have h := (spec_C7 envCross emptyState 0 "BTC" "ETH" 50000 2500
    (cryptoMeta 0 "BTC" "usd" "CoinGecko") (cryptoMeta 0 "ETH" "usd" "CoinGecko")
    (by decide) (by decide) rfl rfl).1 (by norm_num) (by norm_num) rfl
  rw [h]
  norm_num

theorem heapGet_concat (h : List Meta) (c : List (String × Entry)) (m : Meta) :
    heapGet ⟨h ++ [m], c⟩ h.length = m :=
  getD_append_cons h m [] []

theorem dget_expiredMeta_other (m0 : Meta) (e : PyErr) (k : String)
    (h1 : "warning" ≠ k) (h2 : "error_details" ≠ k)
    (h3 : "cache_age_minutes" ≠ k) (h4 : "minutes_expired" ≠ k) :
    dget (expiredMeta m0 e) k = dget m0 k := by
  simp only [expiredMeta]
  rw [dget_dset_ne _ "error_details" "cache_age" _ (by decide),
    dget_dset_ne _ "warning" "cache_age" _ (by decide)]
  rcases hage : dget m0 "cache_age" with _ | v
  case none =>
    simp only []
    rw [dget_dset_ne _ "error_details" "seconds_expired" _ (by decide),
      dget_dset_ne _ "warning" "seconds_expired" _ (by decide)]
    rcases hse : dget m0 "seconds_expired" with _ | v2
    case none => simp [dget_dset_ne, dget_dset_self, h1, h2]
    case some => cases v2 <;> simp [dget_dset_ne, dget_dset_self, h1, h2, h4]
  case some =>
    cases v with
    | num q =>
      simp only []
      rw [dget_dset_ne _ "cache_age_minutes" "seconds_expired" _ (by decide),
        dget_dset_ne _ "error_details" "seconds_expired" _ (by decide),
        dget_dset_ne _ "warning" "seconds_expired" _ (by decide)]
      rcases hse : dget m0 "seconds_expired" with _ | v2
      case none => simp [dget_dset_ne, dget_dset_self, h1, h2, h3]
      case some => cases v2 <;> simp [dget_dset_ne, dget_dset_self, h1, h2, h3, h4]
    | str s =>
      simp only []
      rw [dget_dset_ne _ "error_details" "seconds_expired" _ (by decide),
        dget_dset_ne _ "warning" "seconds_expired" _ (by decide)]
      rcases hse : dget m0 "seconds_expired" with _ | v2
      case none => simp [dget_dset_ne, dget_dset_self, h1, h2]
      case some => cases v2 <;> simp [dget_dset_ne, dget_dset_self, h1, h2, h4]
    | bool b =>
      simp only []
      rw [dget_dset_ne _ "error_details" "seconds_expired" _ (by decide),
        dget_dset_ne _ "warning" "seconds_expired" _ (by decide)]
      rcases hse : dget m0 "seconds_expired" with _ | v2
      case none => simp [dget_dset_ne, dget_dset_self, h1, h2]
      case some => cases v2 <;> simp [dget_dset_ne, dget_dset_self, h1, h2, h4]

theorem dget_expiredMeta_warning (m0 : Meta) (e : PyErr) :
    dget (expiredMeta m0 e) "warning" =
      some (.str "Using expired cached rate due to API error") := by
  simp only [expiredMeta]
  rw [dget_dset_ne _ "error_details" "cache_age" _ (by decide),
    dget_dset_ne _ "warning" "cache_age" _ (by decide)]
  rcases hage : dget m0 "cache_age" with _ | v
  case none =>
    simp only []
    rw [dget_dset_ne _ "error_details" "seconds_expired" _ (by decide),
      dget_dset_ne _ "warning" "seconds_expired" _ (by decide)]
    rcases hse : dget m0 "seconds_expired" with _ | v2
    case none => simp [dget_dset_ne, dget_dset_self]
    case some => cases v2 <;> simp [dget_dset_ne, dget_dset_self]
  case some =>
    cases v with
    | num q =>
      simp only []
      rw [dget_dset_ne _ "cache_age_minutes" "seconds_expired" _ (by decide),
        dget_dset_ne _ "error_details" "seconds_expired" _ (by decide),
        dget_dset_ne _ "warning" "seconds_expired" _ (by decide)]
      rcases hse : dget m0 "seconds_expired" with _ | v2
      case none => simp [dget_dset_ne, dget_dset_self]
      case some => cases v2 <;> simp [dget_dset_ne, dget_dset_self]
    | str s =>
      simp only []
      rw [dget_dset_ne _ "error_details" "seconds_expired" _ (by decide),
        dget_dset_ne _ "warning" "seconds_expired" _ (by decide)]
      rcases hse : dget m0 "seconds_expired" with _ | v2
      case none => simp [dget_dset_ne, dget_dset_self]
      case some => cases v2 <;> simp [dget_dset_ne, dget_dset_self]
    | bool b =>
      simp only []
      rw [dget_dset_ne _ "error_details" "seconds_expired" _ (by decide),
        dget_dset_ne _ "warning" "seconds_expired" _ (by decide)]
      rcases hse : dget m0 "seconds_expired" with _ | v2
      case none => simp [dget_dset_ne, dget_dset_self]
      case some => cases v2 <;> simp [dget_dset_ne, dget_dset_self]

theorem dget_expiredMeta_error_details (m0 : Meta) (e : PyErr) :
    dget (expiredMeta m0 e) "error_details" = some (.str (errStr e)) := by
  simp only [expiredMeta]
  rw [dget_dset_ne _ "error_details" "cache_age" _ (by decide),
    dget_dset_ne _ "warning" "cache_age" _ (by decide)]
  rcases hage : dget m0 "cache_age" with _ | v
  case none =>
    simp only []
    rw [dget_dset_ne _ "error_details" "seconds_expired" _ (by decide),
      dget_dset_ne _ "warning" "seconds_expired" _ (by decide)]
    rcases hse : dget m0 "seconds_expired" with _ | v2
    case none => simp [dget_dset_ne, dget_dset_self]
    case some => cases v2 <;> simp [dget_dset_ne, dget_dset_self]
  case some =>
    cases v with
    | num q =>
      simp only []
      rw [dget_dset_ne _ "cache_age_minutes" "seconds_expired" _ (by decide),
        dget_dset_ne _ "error_details" "seconds_expired" _ (by decide),
        dget_dset_ne _ "warning" "seconds_expired" _ (by decide)]
      rcases hse : dget m0 "seconds_expired" with _ | v2
      case none => simp [dget_dset_ne, dget_dset_self]
      case some => cases v2 <;> simp [dget_dset_ne, dget_dset_self]
    | str s =>
      simp only []
      rw [dget_dset_ne _ "error_details" "seconds_expired" _ (by decide),
        dget_dset_ne _ "warning" "seconds_expired" _ (by decide)]
      rcases hse : dget m0 "seconds_expired" with _ | v2
      case none => simp [dget_dset_ne, dget_dset_self]
      case some => cases v2 <;> simp [dget_dset_ne, dget_dset_self]
    | bool b =>
      simp only []
      rw [dget_dset_ne _ "error_details" "seconds_expired" _ (by decide),
        dget_dset_ne _ "warning" "seconds_expired" _ (by decide)]
      rcases hse : dget m0 "seconds_expired" with _ | v2
      case none => simp [dget_dset_ne, dget_dset_self]
      case some => cases v2 <;> simp [dget_dset_ne, dget_dset_self]

theorem dget_expiredMeta_cache_age_minutes (m0 : Meta) (e : PyErr) (q : ℚ)
    (hq : dget m0 "cache_age" = some (.num q)) :
    dget (expiredMeta m0 e) "cache_age_minutes" =
      some (.num (pyRound1 (q / 60))) := by
  simp only [expiredMeta]
  rw [dget_dset_ne _ "error_details" "cache_age" _ (by decide),
    dget_dset_ne _ "warning" "cache_age" _ (by decide), hq]
  simp only []
  rw [dget_dset_ne _ "cache_age_minutes" "seconds_expired" _ (by decide),
    dget_dset_ne _ "error_details" "seconds_expired" _ (by decide),
    dget_dset_ne _ "warning" "seconds_expired" _ (by decide)]
  rcases hse : dget m0 "seconds_expired" with _ | v2
  case none => simp [dget_dset_ne, dget_dset_self]
  case some => cases v2 <;> simp [dget_dset_ne, dget_dset_self]

/-- C1: whenever the initial fresh cache lookup misses and the
try-block of get_exchange_rate fails with some exception e (leaving
session state st1), the resolver — which by construction returns a
plain value, never re-raising — falls back in order: a fresh cache
entry, returned with a warning and the message of e; then an expired
cache entry, returned with a warning, the message of e and the
minute-granularity age fields; and when no cache entry exists at all, a
zero-rate quote with rate 0 and error set to true. -/
theorem spec_C1 (env : Env) (st st1 : CState) (now : ℚ) (source target : String)
    (e : PyErr)
    (h0 : get_cached_rate st now source target false = none)
    (hb : resolveBody env st now source target = (.error e, st1)) :
    (∀ m, get_cached_rate st1 now source target false = some m →
      (get_exchange_rate env st now source target).1 = rateOf m ∧
      dget (resultMeta (get_exchange_rate env st now source target)) "warning" =
        some (.str "Using cached rate due to API error (recent cache)") ∧
      dget (resultMeta (get_exchange_rate env st now source target)) "error_details" =
        some (.str (errStr e))) ∧
    (get_cached_rate st1 now source target false = none →
      ∀ m, get_cached_rate st1 now source target true = some m →
      (get_exchange_rate env st now source target).1 = rateOf m ∧
      dget (resultMeta (get_exchange_rate env st now source target)) "warning" =
        some (.str "Using expired cached rate due to API error") ∧
      dget (resultMeta (get_exchange_rate env st now source target)) "error_details" =
        some (.str (errStr e)) ∧
      (∀ q, dget m "cache_age" = some (.num q) →
        dget (resultMeta (get_exchange_rate env st now source target)) "cache_age_minutes" =
          some (.num (pyRound1 (q / 60))))) ∧
    (get_cached_rate st1 now source target false = none →
      get_cached_rate st1 now source target true = none →
      (get_exchange_rate env st now source target).1 = 0 ∧
      dget (resultMeta (get_exchange_rate env st now source target)) "rate" =
        some (.num 0) ∧
      dget (resultMeta (get_exchange_rate env st now source target)) "error" =
        some (.bool true) ∧
      dget (resultMeta (get_exchange_rate env st now source target)) "warning" =
        some (.str "Using fallback zero rate due to API errors and no cache available")) := by
  have hR : get_exchange_rate env st now source target =
      errorFallback st1 now source target e := by
    simp only [get_exchange_rate, h0, hb]
  rw [hR]
  refine ⟨?_, ?_, ?_⟩
  · intro m hm
    simp only [errorFallback, hm, resultMeta, alloc, heapGet_concat]
    refine ⟨?_, ?_, ?_⟩
    · unfold rateOf
      rw [dget_dset_ne _ "error_details" "rate" _ (by decide),
        dget_dset_ne _ "warning" "rate" _ (by decide)]
    · rw [dget_dset_ne _ "error_details" "warning" _ (by decide), dget_dset_self]
    · rw [dget_dset_self]
  · intro h1 m hm
    simp only [errorFallback, h1, hm, resultMeta, alloc, heapGet_concat]
    refine ⟨?_, ?_, ?_, ?_⟩
    · unfold rateOf
      rw [dget_expiredMeta_other m e "rate" (by decide) (by decide) (by decide) (by decide)]
    · exact dget_expiredMeta_warning m e
    · exact dget_expiredMeta_error_details m e
    · intro q hq
      exact dget_expiredMeta_cache_age_minutes m e q hq
  · intro h1 h2
    simp only [errorFallback, h1, h2, resultMeta, alloc, heapGet_concat]
    refine ⟨trivial, ?_, ?_, ?_⟩ <;> simp [dget]

/-- Witness for C1 at a concrete input: all providers down, empty cache,
the USD to EUR resolution fails with the fiat exhaustion error and the
resolver returns the zero-rate error sentinel without raising. -/
theorem spec_C1_w :
    (get_exchange_rate envDown emptyState 0 "USD" "EUR").1 = 0 ∧
    dget (resultMeta (get_exchange_rate envDown emptyState 0 "USD" "EUR")) "rate" =
      some (.num 0) ∧
    dget (resultMeta (get_exchange_rate envDown emptyState 0 "USD" "EUR")) "error" =
      some (.bool true) ∧
    dget (resultMeta (get_exchange_rate envDown emptyState 0 "USD" "EUR")) "warning" =
      some (.str "Using fallback zero rate due to API errors and no cache available") := by
  have h := spec_C1 envDown emptyState emptyState 0 "USD" "EUR"
    (.runtimeError (fiatExhaustMsg [])) rfl rfl
  exact h.2.2 rfl rfl

/-- An environment for the pivot scenario: CoinGecko down, CoinCap
answering BTC at 50000 USD, the primary fiat provider quoting EUR at
9/10 per USD; everything else down. -/
def envPivot : Env :=
  ⟨fun s => if s = "USD" then some ⟨200, none, some [("EUR", 9 / 10)]⟩ else none,
   fun _ _ => none, fun _ _ => none, fun _ _ => none,
   fun id => if id = "bitcoin" then some ⟨200, true, some 50000⟩ else none,
   fun _ _ => none⟩

/-- C8: when CoinGecko has failed and CoinCap answers with a USD price p
for a non-USD fiat target, get_crypto_rate returns p multiplied by the
pivot rate fiat_rate(USD, target) labelled CoinCap; and if the pivot
call fails, the whole CoinCap attempt becomes a recorded failure and the
chain proceeds to CryptoCompare (whose answer, or the zero sentinel, is
what comes back) — a bare USD price is never returned labelled with the
requested target. -/
theorem spec_C8 (env : Env) (now : ℚ) (crypto fiat : String)
    (hc : pyUpper crypto ∈ cryptoCodes) (hf : pyUpper fiat ∈ FIAT_CURRENCIES)
    (hnu : pyLower fiat ≠ "usd")
    (h1 : (tryCoinGecko env now (pyUpper crypto) (pyLower fiat)).failed = true)
    (resp : CapResp) (hcap : env.coincap (capId (pyUpper crypto)) = some resp)
    (hst : resp.status = 200) (hd : resp.hasData = true) (p : ℚ)
    (hp : resp.priceUsd = some p) :
    (∀ f mf, get_fiat_rate env now "USD" (pyUpper (pyLower fiat)) = .ok (f, mf) →
      get_crypto_rate env now crypto fiat =
        .ok (p * f, cryptoMeta now (pyUpper crypto) (pyLower fiat) "CoinCap")) ∧
    (∀ e2, get_fiat_rate env now "USD" (pyUpper (pyLower fiat)) = .error e2 →
      tryCoinCap env now (pyUpper crypto) (pyLower fiat) =
        .failMsg ("Failed to convert USD to " ++ pyUpper (pyLower fiat) ++ ": " ++ errStr e2) ∧
      (∀ r m, tryCryptoCompare env now (pyUpper crypto) (pyLower fiat) = .ok r m →
        get_crypto_rate env now crypto fiat = .ok (r, m)) ∧
      ((tryCryptoCompare env now (pyUpper crypto) (pyLower fiat)).failed = true →
        get_crypto_rate env now crypto fiat = .ok (0,
          cryptoErrMeta now (pyUpper crypto) (pyLower fiat) (collectMsgs
            [tryCoinGecko env now (pyUpper crypto) (pyLower fiat),
             tryCoinCap env now (pyUpper crypto) (pyLower fiat),
             tryCryptoCompare env now (pyUpper crypto) (pyLower fiat)])))) := by
  constructor
  · intro f mf hpiv
    have hcap2 : tryCoinCap env now (pyUpper crypto) (pyLower fiat) =
        .ok (p * f) (cryptoMeta now (pyUpper crypto) (pyLower fiat) "CoinCap") := by
      simp only [tryCoinCap, hcap, hst, hd, hp, hpiv]
      rw [if_neg (by simp), if_pos hnu]
      simp
    simp only [get_crypto_rate]
    rw [if_neg (not_not_intro hc), if_neg (not_not_intro hf),
      firstOk_cons_failed _ _ h1, hcap2]
    rfl
  · intro e2 hpiv
    have hcap2 : tryCoinCap env now (pyUpper crypto) (pyLower fiat) =
        .failMsg ("Failed to convert USD to " ++ pyUpper (pyLower fiat) ++ ": " ++ errStr e2) := by
      simp only [tryCoinCap, hcap, hst, hd, hp, hpiv]
      rw [if_neg (by simp), if_pos hnu]
      simp
    refine ⟨hcap2, ?_, ?_⟩
    · intro r m h3
      simp only [get_crypto_rate]
      rw [if_neg (not_not_intro hc), if_neg (not_not_intro hf),
        firstOk_cons_failed _ _ h1, firstOk_cons_failed _ _ (by rw [hcap2]; rfl), h3]
      rfl
    · intro h3
      simp only [get_crypto_rate]
      rw [if_neg (not_not_intro hc), if_neg (not_not_intro hf),
        firstOk_all_failed _ _ _ h1 (by rw [hcap2]; rfl) h3]

/-- Witness for C8 at a concrete input: with envPivot the BTC to EUR
quote is exactly 50000 multiplied by the 9/10 pivot, labelled CoinCap. -/
theorem spec_C8_w :
    get_crypto_rate envPivot 0 "BTC" "EUR" =
      .ok (50000 * (9 / 10), cryptoMeta 0 "BTC" "eur" "CoinCap") := by
  have h := (spec_C8 envPivot 0 "BTC" "EUR" (by decide) (by decide) (by decide) rfl
    ⟨200, true, some 50000⟩ rfl rfl rfl 50000 rfl).1 (9 / 10)
    (fiatMeta 0 "USD" "EUR" "ExchangeRate-API") rfl
  exact h

theorem heapGet_concat2 (h : List Meta) (x y : Meta) (c : List (String × Entry)) :
    heapGet ⟨h ++ [x] ++ [y], c⟩ h.length = x := by
  show (h ++ [x] ++ [y]).getD h.length [] = x
  rw [List.append_assoc]
  exact getD_append_cons h x [y] []

theorem heapGet_heapSet_self (st : CState) (a : Nat) (m : Meta)
    (h : a < st.heap.length) : heapGet (heapSet st a m) a = m := by
  simp only [heapGet, heapSet]
  exact getD_set_self st.heap a m [] h

/-- An environment in which the primary fiat provider quotes EUR at 2
per USD; everything else is down. -/
def envUsdEur2 : Env :=
  ⟨fun s => if s = "USD" then some ⟨200, none, some [("EUR", 2)]⟩ else none,
   fun _ _ => none, fun _ _ => none, fun _ _ => none, fun _ => none, fun _ _ => none⟩

/-- Counterexample to C9 as stated: convert_currency adds the conversion
fields to the returned metadata dict in place, and on a fresh resolution
that dict is the very object stored in the cache: after converting 100
USD to EUR at rate 2, the cache entry for (USD, EUR) points at a
metadata dict that now carries converted_amount and original_amount. -/
theorem spec_C9_cex :
    (convert_currency envUsdEur2 emptyState 0 100 "USD" "EUR").1 = 200 ∧
    (dget (convert_currency envUsdEur2 emptyState 0 100 "USD" "EUR").2.2.cache
      (get_cache_key "USD" "EUR")).map Entry.metaRef = some 0 ∧
    dget (heapGet (convert_currency envUsdEur2 emptyState 0 100 "USD" "EUR").2.2 0)
      "converted_amount" = some (.num 200) ∧
    dget (heapGet (convert_currency envUsdEur2 emptyState 0 100 "USD" "EUR").2.2 0)
      "original_amount" = some (.num 100) := by
  refine ⟨?_, rfl, ?_, rfl⟩
  · have h : (convert_currency envUsdEur2 emptyState 0 100 "USD" "EUR").1 = 100 * 2 := rfl
    rw [h]
    norm_num
  · have h : dget (heapGet (convert_currency envUsdEur2 emptyState 0 100 "USD" "EUR").2.2 0)
        "converted_amount" = some (.num (100 * 2)) := rfl
    rw [h]
    norm_num

/-- C9 amended: convert_currency returns amount multiplied by the
resolved rate and attaches original_amount and converted_amount to the
returned metadata dict in place, not to a copy; on a fresh resolution
(initial cache miss, provider success with nonzero rate) that dict is
the object the direct cache entry references, so the cached metadata for
(source, target) acquires both fields. On a cache-hit path the resolver
hands out a copy and the cache entry is unaffected. -/
theorem spec_C9 (env : Env) (st : CState) (now amount : ℚ) (source target : String)
    (r : ℚ) (m : Meta)
    (h0 : get_cached_rate st now source target false = none)
    (hc : caseComputation env now source target = .ok (r, m))
    (hr : r ≠ 0)
    (hk : get_cache_key target source ≠ get_cache_key source target) :
    (convert_currency env st now amount source target).1 = amount * r ∧
    ∃ en, dget (convert_currency env st now amount source target).2.2.cache
        (get_cache_key source target) = some en ∧
      dget (heapGet (convert_currency env st now amount source target).2.2 en.metaRef)
        "converted_amount" = some (.num (amount * r)) ∧
      dget (heapGet (convert_currency env st now amount source target).2.2 en.metaRef)
        "original_amount" = some (.num amount) := by
  have hge : get_exchange_rate env st now source target =
      (r, st.heap.length,
       ⟨st.heap ++ [m] ++ [dset (dset m "rate" (.num (1 / r))) "is_inverse" (.bool true)],
        dset (dset st.cache (get_cache_key source target)
            ⟨r, st.heap.length, now + CACHE_TTL, now⟩)
          (get_cache_key target source)
          ⟨1 / r, (st.heap ++ [m]).length, now + CACHE_TTL, now⟩⟩) := by
    simp only [get_exchange_rate, h0, resolveBody, hc, alloc, cache_rate, if_neg hr,
      heapGet_concat]
  have hcc : convert_currency env st now amount source target =
      (amount * r, st.heap.length,
       heapSet
         ⟨st.heap ++ [m] ++ [dset (dset m "rate" (.num (1 / r))) "is_inverse" (.bool true)],
          dset (dset st.cache (get_cache_key source target)
              ⟨r, st.heap.length, now + CACHE_TTL, now⟩)
            (get_cache_key target source)
            ⟨1 / r, (st.heap ++ [m]).length, now + CACHE_TTL, now⟩⟩
         st.heap.length
         (dset (dset m "converted_amount" (.num (amount * r)))
           "original_amount" (.num amount))) := by
    simp only [convert_currency, hge, heapGet_concat2]
  rw [hcc]
  refine ⟨rfl, ⟨r, st.heap.length, now + CACHE_TTL, now⟩, ?_, ?_, ?_⟩
  · simp only [heapSet]
    rw [dget_dset_ne _ _ _ _ hk, dget_dset_self]
  · rw [heapGet_heapSet_self _ _ _ (by simp)]
    rw [dget_dset_ne _ "original_amount" "converted_amount" _ (by decide), dget_dset_self]
  · rw [heapGet_heapSet_self _ _ _ (by simp)]
    rw [dget_dset_self]

/-- Witness for C9 amended at a concrete input: converting 100 USD to
EUR at rate 2 yields 200 and the cached direct entry's metadata carries
both conversion fields. -/
theorem spec_C9_w :
    (convert_currency envUsdEur2 emptyState 0 100 "USD" "EUR").1 = 100 * 2 ∧
    ∃ en, dget (convert_currency envUsdEur2 emptyState 0 100 "USD" "EUR").2.2.cache
        (get_cache_key "USD" "EUR") = some en ∧
      dget (heapGet (convert_currency envUsdEur2 emptyState 0 100 "USD" "EUR").2.2 en.metaRef)
        "converted_amount" = some (.num (100 * 2)) ∧
      dget (heapGet (convert_currency envUsdEur2 emptyState 0 100 "USD" "EUR").2.2 en.metaRef)
        "original_amount" = some (.num 100) :=
  spec_C9 envUsdEur2 emptyState 0 100 "USD" "EUR" 2
    (fiatMeta 0 "USD" "EUR" "ExchangeRate-API") rfl rfl (by norm_num) (by decide)

theorem cryptoCodes_facts :
    ∀ c ∈ cryptoCodes, pyUpper c = c ∧
      get_cache_key c "USD" ≠ get_cache_key "USD" c := by
  decide

/-- C10: for a supported crypto code C with an empty cache and every
crypto provider failing, get_exchange_rate(C, USD) returns rate 0 with
cached metadata and a warning, not the error sentinel: the zero-rate
provider sentinel is written to the direct cache slot before the inverse
reciprocal raises, the handler then finds that fresh zero-rate entry,
and the final state holds the fresh (C, USD) entry with rate 0 and no
inverse (USD, C) entry. -/
theorem spec_C10 (env : Env) (now : ℚ) (C : String)
    (hC : C ∈ cryptoCodes)
    (h1 : (tryCoinGecko env now C "usd").failed = true)
    (h2 : (tryCoinCap env now C "usd").failed = true)
    (h3 : (tryCryptoCompare env now C "usd").failed = true) :
    (get_exchange_rate env emptyState now C "USD").1 = 0 ∧
    dget (resultMeta (get_exchange_rate env emptyState now C "USD")) "cached" =
      some (.bool true) ∧
    dget (resultMeta (get_exchange_rate env emptyState now C "USD")) "warning" =
      some (.str "Using cached rate due to API error (recent cache)") ∧
    dget (resultMeta (get_exchange_rate env emptyState now C "USD")) "error" =
      some (.str (cryptoExhaustMsg (collectMsgs
        [tryCoinGecko env now C "usd", tryCoinCap env now C "usd",
         tryCryptoCompare env now C "usd"]))) ∧
    dget (get_exchange_rate env emptyState now C "USD").2.2.cache
      (get_cache_key C "USD") = some ⟨0, 0, now + CACHE_TTL, now⟩ ∧
    dget (get_exchange_rate env emptyState now C "USD").2.2.cache
      (get_cache_key "USD" C) = none := by
  have hup : pyUpper C = C := (cryptoCodes_facts C hC).1
  have hkne : get_cache_key C "USD" ≠ get_cache_key "USD" C :=
    (cryptoCodes_facts C hC).2
  have hic : is_crypto C = true := by
    unfold is_crypto
    rw [hup]
    exact decide_eq_true hC
  have hcr : get_crypto_rate env now C "USD" = .ok (0, cryptoErrMeta now C "usd"
      (collectMsgs [tryCoinGecko env now C "usd", tryCoinCap env now C "usd",
        tryCryptoCompare env now C "usd"])) := by
    simp only [get_crypto_rate]
    rw [hup, show pyLower "USD" = "usd" from rfl]
    rw [if_neg (not_not_intro hC), if_neg (not_not_intro (by decide)),
      firstOk_all_failed _ _ _ h1 h2 h3]
  have hcase : caseComputation env now C "USD" = .ok (0, cryptoErrMeta now C "usd"
      (collectMsgs [tryCoinGecko env now C "usd", tryCoinCap env now C "usd",
        tryCryptoCompare env now C "usd"])) := by
    simp only [caseComputation, hic, if_true,
      show is_crypto "USD" = false from by decide, Bool.false_eq_true, if_false]
    exact hcr
  have hfall : get_exchange_rate env emptyState now C "USD" =
      errorFallback
        ⟨[cryptoErrMeta now C "usd" (collectMsgs [tryCoinGecko env now C "usd",
            tryCoinCap env now C "usd", tryCryptoCompare env now C "usd"])],
         [(get_cache_key C "USD", ⟨0, 0, now + CACHE_TTL, now⟩)]⟩
        now C "USD" .zeroDivisionError := by
    simp only [get_exchange_rate]
    rw [show get_cached_rate emptyState now C "USD" false = none from rfl]
    simp only [resolveBody, hcase, alloc, cache_rate, emptyState]
    simp [dset]
  have hlook : get_cached_rate
      ⟨[cryptoErrMeta now C "usd" (collectMsgs [tryCoinGecko env now C "usd",
          tryCoinCap env now C "usd", tryCryptoCompare env now C "usd"])],
       [(get_cache_key C "USD", ⟨0, 0, now + CACHE_TTL, now⟩)]⟩
      now C "USD" false =
      some (dset (dset (dset (cryptoErrMeta now C "usd"
          (collectMsgs [tryCoinGecko env now C "usd", tryCoinCap env now C "usd",
            tryCryptoCompare env now C "usd"]))
        "rate" (.num 0)) "cached" (.bool true)) "cache_age" (.num (now - now))) := by
    simp only [get_cached_rate]
    rw [show dget [(get_cache_key C "USD",
        (⟨0, 0, now + CACHE_TTL, now⟩ : Entry))] (get_cache_key C "USD") =
      some ⟨0, 0, now + CACHE_TTL, now⟩ from by simp [dget]]
    simp only []
    rw [if_pos (Or.inl (le_add_of_nonneg_right (α := ℚ) (by norm_num [CACHE_TTL])))]
    simp [heapGet]
  rw [hfall]
  simp only [errorFallback, hlook, resultMeta, alloc, heapGet_concat]
  refine ⟨?_, ?_, ?_, ?_, ?_, ?_⟩
  · unfold rateOf
    rw [dget_dset_ne _ "error_details" "rate" _ (by decide),
      dget_dset_ne _ "warning" "rate" _ (by decide),
      dget_dset_ne _ "cache_age" "rate" _ (by decide),
      dget_dset_ne _ "cached" "rate" _ (by decide), dget_dset_self]
  · rw [dget_dset_ne _ "error_details" "cached" _ (by decide),
      dget_dset_ne _ "warning" "cached" _ (by decide),
      dget_dset_ne _ "cache_age" "cached" _ (by decide), dget_dset_self]
  · rw [dget_dset_ne _ "error_details" "warning" _ (by decide), dget_dset_self]
  · rw [dget_dset_ne _ "error_details" "error" _ (by decide),
      dget_dset_ne _ "warning" "error" _ (by decide),
      dget_dset_ne _ "cache_age" "error" _ (by decide),
      dget_dset_ne _ "cached" "error" _ (by decide),
      dget_dset_ne _ "rate" "error" _ (by decide)]
    simp [cryptoErrMeta, dget]
  · simp [dget]
  · simp [dget, hkne]

/-- Witness for C10 at a concrete input: BTC to USD with every provider
down and an empty cache comes back as a cached zero-rate quote with a
warning, the direct entry stored and no inverse entry. -/
theorem spec_C10_w :
    (get_exchange_rate envDown emptyState 0 "BTC" "USD").1 = 0 ∧
    dget (resultMeta (get_exchange_rate envDown emptyState 0 "BTC" "USD")) "cached" =
      some (.bool true) ∧
    dget (resultMeta (get_exchange_rate envDown emptyState 0 "BTC" "USD")) "warning" =
      some (.str "Using cached rate due to API error (recent cache)") ∧
    dget (resultMeta (get_exchange_rate envDown emptyState 0 "BTC" "USD")) "error" =
      some (.str (cryptoExhaustMsg (collectMsgs
        [tryCoinGecko envDown 0 "BTC" "usd", tryCoinCap envDown 0 "BTC" "usd",
         tryCryptoCompare envDown 0 "BTC" "usd"]))) ∧
    dget (get_exchange_rate envDown emptyState 0 "BTC" "USD").2.2.cache
      (get_cache_key "BTC" "USD") = some ⟨0, 0, 0 + CACHE_TTL, 0⟩ ∧
    dget (get_exchange_rate envDown emptyState 0 "BTC" "USD").2.2.cache
      (get_cache_key "USD" "BTC") = none :=
  spec_C10 envDown 0 "BTC" (by decide) rfl rfl rfl
